import Mathlib

/-!
Verification of the MYND Matters Pack marketing-site server
(`src/server.js`): the affiliate-attribution middleware, the checkout
session builder, and the Stripe webhook reconciler. The JavaScript
handlers are shallowly embedded as pure Lean functions; HTTP effects are
reified as response values and lists of provider actions.
-/

namespace MyndMatters

/-! ## JavaScript primitives -/

/-- JS string truthiness for an optional string: `undefined`, `null` and
the empty string are falsy; every other string is truthy. -/
def jsTruthyStr (o : Option String) : Bool :=
  o.getD "" ≠ ""

/-- JS short-circuit `a || b` on optional strings: yields `a` when it is
truthy, otherwise `b`. -/
def jsOrStr (a b : Option String) : Option String :=
  if jsTruthyStr a then a else b

/-! ## Metadata objects

A Stripe metadata object is a flat string-to-string mapping, embedded as
an association list. JS object spread `\x7b...a, ...b\x7d` yields the map whose
key set is the union and where `b` wins on conflicting keys. -/

abbrev Metadata : Type := List (String × String)

/-- Key lookup in a metadata object (first binding wins, as in a JS
object, whose keys are unique). -/
def mlookup (m : Metadata) (k : String) : Option String :=
  match m with
  | [] => none
  | (k', v) :: rest => if k' = k then some v else mlookup rest k

/-- JS object spread `\x7b...a, ...b\x7d`: on every key present in `b` the value
from `b` replaces the value from `a`; keys only in `a` keep their value. -/
def spread (a b : Metadata) : Metadata :=
  (List.filter (fun p => (mlookup b p.1).isNone) a) ++ b

/-- The empty metadata object. -/
def mempty : Metadata := ([] : List (String × String))

/-! ## String primitives used by the middleware

The JS string operations `split`, `toLowerCase` and the regex suffix test
are embedded as structurally recursive functions on character lists, so
that every middleware outcome is kernel-computable. -/

/-- JS `s.split(sep)` for the one-character separator, on character
lists: `splitChar c` of the empty list is one empty segment, and a
separator starts a fresh segment. -/
def splitChar (sep : Char) : List Char → List (List Char)
  | [] => [[]]
  | c :: cs =>
      if c = sep then [] :: splitChar sep cs
      else
        match splitChar sep cs with
        | [] => [[c]]
        | seg :: rest => (c :: seg) :: rest

/-- ASCII lowercase of a character list (JS `toLowerCase` on the ASCII
strings the middleware handles). -/
def lowerChars (l : List Char) : List Char :=
  l.map Char.toLower

/-- Test that `l` ends with `suffix` (the regex anchor at the end of the path). -/
def endsWithChars (l suffix : List Char) : Bool :=
  List.isPrefixOf suffix.reverse l.reverse

/-! ## Affiliate middleware (src/server.js lines 30-89)

The middleware's observable effect on a request is either a pass-through
to the next handler or a redirect, optionally carrying a `Set-Cookie`. -/

/-- The primary domain constant (`PRIMARY_DOMAIN`). -/
def PRIMARY_DOMAIN : String := "myndmatterspack.com"

/-- The cookie domain constant (`COOKIE_DOMAIN`), the leading-dot form of
the primary domain. -/
def COOKIE_DOMAIN : String := ".myndmatterspack.com"

/-- The cookie max-age constant (`COOKIE_MAX_AGE`): 365 days in
milliseconds, 1000 * 60 * 60 * 24 * 365. -/
def COOKIE_MAX_AGE : Nat := 1000 * 60 * 60 * 24 * 365

/-- The reserved first path segments (`RESERVED`). -/
def RESERVED : List String :=
  ["", "index.html", "success.html", "cancel.html",
   "checkout.html", "delivery-details.html",
   "checkout.js", "script.js", "style.css",
   "robots.txt", "sitemap.xml", "favicon.ico",
   "images", "img", "assets",
   "create-checkout-session"]

/-- The dotted suffixes recognized by `FILE_EXT_RE`, with the optional
groups `jpe?g` and `woff2?` expanded. -/
def FILE_EXT_SUFFIXES : List String :=
  [".css", ".js", ".mjs", ".map", ".png", ".jpeg", ".jpg", ".gif",
   ".webp", ".avif", ".svg", ".ico", ".bmp", ".json", ".txt", ".xml",
   ".woff", ".woff2", ".ttf", ".eot", ".otf", ".mp4", ".webm", ".ogg",
   ".wav", ".pdf"]

/-- The test `FILE_EXT_RE.test p`: the string ends, case-insensitively, in a dot
followed by one of the known file extensions. -/
def fileExtTest (p : String) : Bool :=
  FILE_EXT_SUFFIXES.any (fun e => endsWithChars (lowerChars p.data) e.data)

/-- The affiliate cookie as issued by `res.cookie` in the middleware. -/
structure Cookie where
  name : String
  value : String
  domain : String
  maxAge : Nat
  sameSite : String
  secure : Bool
  httpOnly : Bool
deriving DecidableEq, Repr

/-- The part of an Express request the middleware inspects. Optional
fields model absent headers. -/
structure MwRequest where
  method : String
  hostHeader : String
  path : String
  originalUrl : String
  xForwardedProto : Option String
deriving DecidableEq, Repr

/-- The middleware's outcome: fall through to the next handler, or send a
redirect with a status, a Location target and an optional cookie. -/
inductive MwResponse where
  | next : MwResponse
  | redirect (status : Nat) (location : String) (cookie : Option Cookie) : MwResponse
deriving DecidableEq, Repr

/-- Host extraction: `(req.headers.host or empty).split(colon)[0]`. -/
def hostOf (req : MwRequest) : String :=
  String.mk ((splitChar ':' req.hostHeader.data).headD [])

/-- First non-empty path segment, lowercased:
`(req.path.split(slash).filter(Boolean)[0] or empty).toLowerCase()`. -/
def firstSegment (req : MwRequest) : String :=
  String.mk (lowerChars (((splitChar '/' req.path.data).filter (fun l => l ≠ [])).headD []))

/-- The HTTPS-enforcement test of line 58: the forwarded-protocol header
is present and truthy and differs from https. -/
def plaintextProto (req : MwRequest) : Bool :=
  jsTruthyStr req.xForwardedProto && (req.xForwardedProto.getD "" ≠ "https")

/-- The slug classifier of lines 62-66: the lowercased first segment is
captured when it is non-empty, not reserved, and the full path does not
look like a file. -/
def slugOf (req : MwRequest) : Option String :=
  let first := firstSegment req
  if (first ≠ "") && !(RESERVED.contains first) && !(fileExtTest req.path)
  then some first else none

/-- The affiliate middleware of src/server.js lines 49-88: non-GET
bypass, HTTPS enforcement, slug capture with cookie and 302 to the
canonical host root, then apex-to-www canonicalization. -/
def affiliateMiddleware (req : MwRequest) : MwResponse :=
  if req.method ≠ "GET" then .next
  else if plaintextProto req then
    .redirect 301 ("https://" ++ hostOf req ++ req.originalUrl) none
  else
    match slugOf req with
    | some s =>
        .redirect 302
          ("https://" ++ (if hostOf req = PRIMARY_DOMAIN
                          then "www." ++ PRIMARY_DOMAIN else hostOf req) ++ "/")
          (some { name := "aff", value := s, domain := COOKIE_DOMAIN,
                  maxAge := COOKIE_MAX_AGE, sameSite := "Lax",
                  secure := true, httpOnly := false })
    | none =>
        if hostOf req = PRIMARY_DOMAIN then
          .redirect 301 ("https://www." ++ PRIMARY_DOMAIN ++ req.originalUrl) none
        else .next

/-- The cookie carried by a middleware outcome, if any. -/
def respCookie : MwResponse → Option Cookie
  | .next => none
  | .redirect _ _ c => c

/-- The redirect status of a middleware outcome, if any. -/
def respStatus : MwResponse → Option Nat
  | .next => none
  | .redirect s _ _ => some s

/-! ## Checkout session builder (src/server.js lines 169-243) -/

/-- JS whitespace recognized by `trim` (ASCII subset; the affiliate and
form values are ASCII). -/
def isJsWhitespace (c : Char) : Bool :=
  c = ' ' || c = '\t' || c = '\n' || c = '\r' || c = '\x0b' || c = '\x0c'

/-- JS `s.trim()`: strip whitespace from both ends. -/
def jsTrim (s : String) : String :=
  String.mk (((s.data.dropWhile isJsWhitespace).reverse.dropWhile isJsWhitespace).reverse)

/-- Accumulate decimal digits into a natural number. -/
def digitsVal : List Char → Nat → Nat
  | [], acc => acc
  | c :: cs, acc => digitsVal cs (acc * 10 + (c.toNat - 48))

/-- JS `parseInt(s, 10)`: skip leading whitespace, read an optional sign
and then decimal digits, ignoring any trailing garbage; `none` models
NaN (no digits). -/
def parseIntJS (s : String) : Option Int :=
  let cs := s.data.dropWhile isJsWhitespace
  let signed : Int × List Char :=
    match cs with
    | '-' :: r => (-1, r)
    | '+' :: r => (1, r)
    | _ => (1, cs)
  let digs := signed.2.takeWhile Char.isDigit
  if digs = [] then none
  else some (signed.1 * (digitsVal digs 0 : Int))

/-- Evaluation of `parseInt(req.body.quantity, 10)` where a missing field parses to
NaN. -/
def parsedQty (quantity : Option String) : Option Int :=
  match quantity with
  | none => none
  | some q => parseIntJS q

/-- Line 180: `Math.max(1, parseInt(req.body.quantity, 10) || 1)`; NaN
and 0 are replaced by 1 before the lower clamp. -/
def initialQty (quantity : Option String) : Int :=
  let v : Int :=
    match parsedQty quantity with
    | none => 1
    | some n => if n = 0 then 1 else n
  max 1 v

/-- The checkout request body (line 172); optional fields model absent
JSON members. -/
structure CheckoutBody where
  name : Option String
  email : Option String
  phone : Option String
  address1 : Option String
  address2 : Option String
  postalCode : Option String
  affiliate : Option String
  quantity : Option String
deriving DecidableEq, Repr

/-- Lines 175-177: `(affiliate or req.affiliate or cookies.aff or empty)
.toString().trim()`. `reqAffiliate` is the value the middleware may have
attached to the request and `cookieAff` the `aff` cookie value. -/
def resolveAffiliate (body : CheckoutBody) (reqAffiliate cookieAff : Option String) : String :=
  jsTrim ((jsOrStr (jsOrStr body.affiliate reqAffiliate) cookieAff).getD "")

/-- Lines 183-192: the single metadata object used everywhere
(`baseMeta`). -/
def baseMeta (body : CheckoutBody) (reqAffiliate cookieAff : Option String) : Metadata :=
  [("affiliate", resolveAffiliate body reqAffiliate cookieAff),
   ("name", body.name.getD ""),
   ("phone", body.phone.getD ""),
   ("address_line1", body.address1.getD ""),
   ("address_line2", body.address2.getD ""),
   ("postal_code", body.postalCode.getD ""),
   ("initial_quantity", toString (initialQty body.quantity))]

/-- JS `email or undefined`: a falsy email becomes undefined. -/
def jsOrUndefined (o : Option String) : Option String :=
  if jsTruthyStr o then o else none

/-- The argument object of `stripe.checkout.sessions.create`
(lines 194-231), flattened to the fields the claims mention. -/
structure SessionParams where
  payment_method_types : List String
  mode : String
  currency : String
  unit_amount : Nat
  product_name : String
  adjustable_enabled : Bool
  adjustable_minimum : Nat
  adjustable_maximum : Nat
  quantity : Int
  customer_email : Option String
  metadata : Metadata
  payment_intent_metadata : Metadata
  invoice_creation_enabled : Bool
  invoice_metadata : Metadata
  success_url : String
  cancel_url : String
deriving DecidableEq, Repr

/-- The /create-checkout-session handler's session-creation request, as
built on lines 169-231. -/
def createCheckoutSessionParams (body : CheckoutBody)
    (reqAffiliate cookieAff : Option String) (host : String) : SessionParams :=
  let meta := baseMeta body reqAffiliate cookieAff
  { payment_method_types := ["card"],
    mode := "payment",
    currency := "sgd",
    unit_amount := 25800,
    product_name := "1-month supply of The MYND Matters Pack",
    adjustable_enabled := true,
    adjustable_minimum := 1,
    adjustable_maximum := 10,
    quantity := initialQty body.quantity,
    customer_email := jsOrUndefined body.email,
    metadata := meta,
    payment_intent_metadata := meta,
    invoice_creation_enabled := true,
    invoice_metadata := meta,
    success_url := "https://" ++ host ++ "/success.html",
    cancel_url := "https://" ++ host ++ "/cancel.html" }

/-! ## Stripe webhook (src/server.js lines 94-163)

The webhook endpoint first verifies the event signature (and the
presence of the signing secret); on failure it answers 400 without
touching the event. On success it dispatches on the event type inside a
try/catch, and answers 200 whether or not the dispatch threw. The
provider calls made by a completed dispatch are reified as a list of
actions; the fallible calls (retrieve and update) are oracles returning
`Except`. -/

/-- The checkout-session object carried by a
`checkout.session.completed` event. -/
structure CheckoutSession where
  id : String
  mode : String
  metadata : Metadata
deriving DecidableEq, Repr

/-- The invoice object carried by an `invoice.created` event;
`subscription` and `customer` are nullable ids. -/
structure Invoice where
  id : String
  metadata : Metadata
  subscription : Option String
  customer : Option String
deriving DecidableEq, Repr

/-- The verified webhook events the handler switches on. -/
inductive StripeEvent where
  | checkoutSessionCompleted (session : CheckoutSession)
  | invoiceCreated (invoice : Invoice)
  | invoicePaymentSucceeded (invoice : Invoice)
  | otherEvent (eventType : String)
deriving DecidableEq, Repr

/-- A provider call or log emitted by the dispatch. -/
inductive StripeAction where
  | retrieveSubscription (id : String)
  | retrieveCustomer (id : String)
  | updateInvoice (id : String) (metadata : Metadata)
  | updateSubscription (id : String) (metadata : Metadata)
  | log (msg : String)
deriving DecidableEq, Repr

/-- Does an action write metadata onto a subscription? The dispatch of
src/server.js never emits such an action. -/
def isSubscriptionUpdate : StripeAction → Bool
  | .updateSubscription _ _ => true
  | _ => false

/-- The event dispatch (the switch of lines 112-156). `subRetrieve`,
`custRetrieve` and `invUpdate` are the fallible Stripe API calls. On
success it returns the provider calls and logs performed, in order. -/
def handleEvent (subRetrieve custRetrieve : String → Except String Metadata)
    (invUpdate : String → Metadata → Except String Unit)
    (event : StripeEvent) : Except String (List StripeAction) :=
  match event with
  | .checkoutSessionCompleted session =>
      .ok [.log ("checkout.session.completed " ++ session.id)]
  | .invoiceCreated invoice => do
      let m0 := invoice.metadata
      let step1 ←
        if jsTruthyStr invoice.subscription then do
          let subMeta ← subRetrieve (invoice.subscription.getD "")
          pure (spread m0 subMeta,
                [StripeAction.retrieveSubscription (invoice.subscription.getD "")])
        else pure (m0, ([] : List StripeAction))
      let step2 ←
        if jsTruthyStr invoice.customer then do
          let custMeta ← custRetrieve (invoice.customer.getD "")
          pure (spread step1.1 custMeta,
                step1.2 ++ [StripeAction.retrieveCustomer (invoice.customer.getD "")])
        else pure step1
      if step2.1 ≠ [] then do
        let _ ← invUpdate invoice.id step2.1
        pure (step2.2 ++ [StripeAction.updateInvoice invoice.id step2.1])
      else pure step2.2
  | .invoicePaymentSucceeded invoice =>
      .ok [.log ("invoice.payment_succeeded " ++ invoice.id)]
  | .otherEvent t =>
      .ok [.log ("Unhandled event type " ++ t)]

/-- The webhook endpoint's observable outcome: the HTTP status sent back
and the provider calls of a successfully completed dispatch (an internal
error is caught and logged, line 157-160, and the acknowledgment is sent
either way, line 163). -/
structure WebhookOutcome where
  status : Nat
  actions : List StripeAction
deriving DecidableEq, Repr

/-- The POST /stripe/webhook endpoint. `secretPresent` models the
STRIPE_WEBHOOK_SECRET check of line 102, `sigValid` the outcome of
`stripe.webhooks.constructEvent` on the raw body and signature header. -/
def stripeWebhook (secretPresent sigValid : Bool)
    (subRetrieve custRetrieve : String → Except String Metadata)
    (invUpdate : String → Metadata → Except String Unit)
    (event : StripeEvent) : WebhookOutcome :=
  if !secretPresent || !sigValid then { status := 400, actions := [] }
  else
    match handleEvent subRetrieve custRetrieve invUpdate event with
    | .ok acts => { status := 200, actions := acts }
    | .error _ => { status := 200, actions := [] }

/-! ## Lemmas about metadata spread -/

theorem mlookup_append (a b : List (String × String)) (k : String) :
    mlookup (a ++ b) k = ((mlookup a k).orElse (fun _ => mlookup b k)) := by
  induction a with
  | nil => simp [mlookup, Option.orElse]
  | cons p rest ih =>
      by_cases h : p.1 = k
      · simp [mlookup, h, Option.orElse]
      · simp [mlookup, h, ih]

theorem mlookup_filter_of_not_in_b (a b : List (String × String)) (k : String)
    (hb : mlookup b k = none) :
    mlookup (List.filter (fun p => (mlookup b p.1).isNone) a) k = mlookup a k := by
  induction a with
  | nil => rfl
  | cons p rest ih =>
      obtain ⟨k', v⟩ := p
      by_cases h : k' = k
      · subst h
        simp [List.filter_cons, hb, mlookup]
      · by_cases hf : (mlookup b k').isNone = true
        · simp [List.filter_cons, hf, mlookup, h, ih]
        · simp [List.filter_cons, hf, mlookup, h, ih]

theorem mlookup_filter_of_in_b (a b : List (String × String)) (k : String)
    (hb : (mlookup b k).isSome) :
    mlookup (List.filter (fun p => (mlookup b p.1).isNone) a) k = none := by
  induction a with
  | nil => rfl
  | cons p rest ih =>
      obtain ⟨k', v⟩ := p
      by_cases h : k' = k
      · subst h
        have hfalse : (mlookup b k').isNone = false := by
          cases hx : mlookup b k'
          · rw [hx] at hb; simp [Option.isSome] at hb
          · rfl
        simp [List.filter_cons, hfalse, ih]
      · by_cases hf : (mlookup b k').isNone = true
        · simp [List.filter_cons, hf, mlookup, h, ih]
        · simp [List.filter_cons, hf, ih]

/-- Spread semantics at the level of lookups: `b` wins where it binds the
key, and `a` answers otherwise. -/
theorem mlookup_spread (a b : Metadata) (k : String) :
    mlookup (spread a b) k =
      (match mlookup b k with
       | some v => some v
       | none => mlookup a k) := by
  unfold spread
  rw [mlookup_append]
  cases hb : mlookup b k with
  | none =>
      rw [mlookup_filter_of_not_in_b a b k hb]
      cases mlookup a k <;> simp [Option.orElse, hb]
  | some v =>
      have : (mlookup b k).isSome := by rw [hb]; rfl
      rw [mlookup_filter_of_in_b a b k this]
      simp [Option.orElse, hb]

/-! ## Theorems about the affiliate middleware -/

/-- C5: on a GET request over HTTPS (per the proxy header) to the primary
domain or its www form, whenever the first path segment classifies as a
slug `s`, the middleware sets the cookie `aff = s` with
`Domain = .myndmatterspack.com`, the fixed max-age, `SameSite = Lax`,
`Secure`, non-HTTP-only, and responds 302 to the canonical host root
`https://www.myndmatterspack.com/`. -/
theorem slug_capture_sets_cookie_and_redirects_to_canonical_root
    (req : MwRequest) (s : String)
    (hm : req.method = "GET")
    (hp : req.xForwardedProto = some "https")
    (hh : hostOf req = PRIMARY_DOMAIN ∨ hostOf req = "www." ++ PRIMARY_DOMAIN)
    (hs : slugOf req = some s) :
    affiliateMiddleware req =
      .redirect 302 "https://www.myndmatterspack.com/"
        (some { name := "aff", value := s, domain := COOKIE_DOMAIN,
                maxAge := COOKIE_MAX_AGE, sameSite := "Lax",
                secure := true, httpOnly := false }) := by
  have hpp : plaintextProto req = false := by
    unfold plaintextProto
    rw [hp]
    decide
  have hstr : ("https://" ++ ("www." ++ PRIMARY_DOMAIN) ++ "/")
      = "https://www.myndmatterspack.com/" := by decide
  rcases hh with h1 | h1
  · simp [affiliateMiddleware, hm, hpp, hs, h1, MwResponse.redirect.injEq, hstr]
  · have hne : hostOf req ≠ PRIMARY_DOMAIN := by rw [h1]; decide
    simp [affiliateMiddleware, hm, hpp, hs, hne, h1, MwResponse.redirect.injEq, hstr]

/-- C5 witness: the concrete scenario GET /partnerxyz on host
myndmatterspack.com over HTTPS yields a 302 to the canonical root with
cookie aff = partnerxyz. -/
theorem slug_capture_sets_cookie_and_redirects_to_canonical_root_witness :
    affiliateMiddleware
      { method := "GET", hostHeader := "myndmatterspack.com",
        path := "/partnerxyz", originalUrl := "/partnerxyz",
        xForwardedProto := some "https" } =
      .redirect 302 "https://www.myndmatterspack.com/"
        (some { name := "aff", value := "partnerxyz", domain := COOKIE_DOMAIN,
                maxAge := COOKIE_MAX_AGE, sameSite := "Lax",
                secure := true, httpOnly := false }) :=
  slug_capture_sets_cookie_and_redirects_to_canonical_root
    { method := "GET", hostHeader := "myndmatterspack.com",
      path := "/partnerxyz", originalUrl := "/partnerxyz",
      xForwardedProto := some "https" }
    "partnerxyz" rfl rfl (Or.inl (by decide)) (by decide)

/-- C6 counterexample: the first segment of /foo.css/bar matches the
file-extension pattern, yet the middleware still issues the affiliate
cookie aff = foo.css, because the code tests the full path against
FILE_EXT_RE, not the first segment. -/
theorem first_segment_extension_still_captured_as_slug :
    fileExtTest "foo.css" = true ∧
    respCookie (affiliateMiddleware
      { method := "GET", hostHeader := "www.myndmatterspack.com",
        path := "/foo.css/bar", originalUrl := "/foo.css/bar",
        xForwardedProto := some "https" }) =
      some { name := "aff", value := "foo.css", domain := COOKIE_DOMAIN,
             maxAge := COOKIE_MAX_AGE, sameSite := "Lax",
             secure := true, httpOnly := false } := by
  constructor
  · decide
  · decide

/-- C6 amended: on any request whose first path segment is reserved or
whose full path ends in a known file extension, the middleware issues no
affiliate cookie and no slug redirect (no 302 response). -/
theorem reserved_or_file_path_never_cookied
    (req : MwRequest)
    (h : RESERVED.contains (firstSegment req) = true ∨ fileExtTest req.path = true) :
    respCookie (affiliateMiddleware req) = none ∧
      respStatus (affiliateMiddleware req) ≠ some 302 := by
  have hcond : ((firstSegment req ≠ "") && !(RESERVED.contains (firstSegment req))
      && !(fileExtTest req.path)) = false := by
    rcases h with h1 | h1
    · rw [h1]; simp
    · rw [h1]; simp
  have hslug : slugOf req = none := by
    simp only [slugOf]
    rw [hcond]
    rfl
  unfold affiliateMiddleware
  rw [hslug]
  split_ifs <;> simp [respCookie, respStatus]

/-- C6 amended witness: GET /style.css (a reserved segment) on the www
host yields no cookie and no 302. -/
theorem reserved_or_file_path_never_cookied_witness :
    respCookie (affiliateMiddleware
      { method := "GET", hostHeader := "www.myndmatterspack.com",
        path := "/style.css", originalUrl := "/style.css",
        xForwardedProto := some "https" }) = none ∧
    respStatus (affiliateMiddleware
      { method := "GET", hostHeader := "www.myndmatterspack.com",
        path := "/style.css", originalUrl := "/style.css",
        xForwardedProto := some "https" }) ≠ some 302 :=
  reserved_or_file_path_never_cookied
    { method := "GET", hostHeader := "www.myndmatterspack.com",
      path := "/style.css", originalUrl := "/style.css",
      xForwardedProto := some "https" }
    (Or.inl (by decide))

/-- C9 counterexample: a POST request carrying a plaintext
forwarded-protocol header is not redirected at all; the middleware
bypasses non-GET requests before the HTTPS check. -/
theorem plaintext_post_not_redirected :
    affiliateMiddleware
      { method := "POST", hostHeader := "www.myndmatterspack.com",
        path := "/create-checkout-session",
        originalUrl := "/create-checkout-session",
        xForwardedProto := some "http" } = .next := by
  decide

/-- C9 amended: on any GET request whose forwarded-protocol header is
present, non-empty and not https, the middleware responds 301 to the
HTTPS equivalent of the same host and original URL, with no cookie -
whatever the path holds, so before slug capture, cookie issuance and
canonical-host redirection. -/
theorem https_enforcement_first_on_get
    (req : MwRequest)
    (hm : req.method = "GET")
    (hp : plaintextProto req = true) :
    affiliateMiddleware req =
      .redirect 301 ("https://" ++ hostOf req ++ req.originalUrl) none := by
  simp [affiliateMiddleware, hm, hp]

/-- C9 amended witness: GET /partnerxyz with forwarded protocol http is
301-redirected to the HTTPS URL and receives no cookie, even though the
path holds a slug. -/
theorem https_enforcement_first_on_get_witness :
    affiliateMiddleware
      { method := "GET", hostHeader := "myndmatterspack.com",
        path := "/partnerxyz", originalUrl := "/partnerxyz",
        xForwardedProto := some "http" } =
      .redirect 301 "https://myndmatterspack.com/partnerxyz" none :=
  (https_enforcement_first_on_get
    { method := "GET", hostHeader := "myndmatterspack.com",
      path := "/partnerxyz", originalUrl := "/partnerxyz",
      xForwardedProto := some "http" }
    rfl (by decide)).trans (by decide)

/-! ## Theorems about the checkout session builder -/

/-- C7: the affiliate entry of the checkout metadata bag is resolved by
priority - the non-empty body field, else the middleware-attached value,
else the aff cookie, else the empty string - and then trimmed; in
particular an absent body field with a cookie present yields the trimmed
cookie value. -/
theorem affiliate_resolved_by_priority
    (body : CheckoutBody) (reqAffiliate cookieAff : Option String) (host : String) :
    mlookup (createCheckoutSessionParams body reqAffiliate cookieAff host).metadata "affiliate" =
      some (jsTrim
        (if jsTruthyStr body.affiliate then body.affiliate.getD ""
         else if jsTruthyStr reqAffiliate then reqAffiliate.getD ""
         else if jsTruthyStr cookieAff then cookieAff.getD ""
         else "")) := by
  show mlookup (baseMeta body reqAffiliate cookieAff) "affiliate" = _
  simp only [baseMeta, mlookup, if_pos rfl]
  unfold resolveAffiliate jsOrStr
  by_cases h1 : jsTruthyStr body.affiliate = true
  · simp [h1]
  · simp only [Bool.not_eq_true] at h1
    by_cases h2 : jsTruthyStr reqAffiliate = true
    · simp [h1, h2]
    · simp only [Bool.not_eq_true] at h2
      by_cases h3 : jsTruthyStr cookieAff = true
      · simp [h1, h2, h3]
      · simp only [Bool.not_eq_true] at h3
        simp [h1, h2, h3]
        cases hc : cookieAff
        · rfl
        · rw [hc] at h3
          simp [jsTruthyStr] at h3
          simp [h3]

/-- C8: the metadata bag on the checkout session, the one placed in
payment_intent_data and the one placed in invoice_creation.invoice_data
are the same mapping, for every request. -/
theorem metadata_attached_identically
    (body : CheckoutBody) (reqAffiliate cookieAff : Option String) (host : String) :
    (createCheckoutSessionParams body reqAffiliate cookieAff host).payment_intent_metadata
        = (createCheckoutSessionParams body reqAffiliate cookieAff host).metadata ∧
      (createCheckoutSessionParams body reqAffiliate cookieAff host).invoice_metadata
        = (createCheckoutSessionParams body reqAffiliate cookieAff host).metadata :=
  ⟨rfl, rfl⟩

/-- C10: the pre-filled quantity is the integer parse of the body's
quantity lower-clamped to 1 - a missing, non-numeric, zero or negative
quantity yields 1 - with no upper clamp, while the adjustable range sent
alongside is the interval from 1 to 10. -/
theorem quantity_lower_clamped_not_upper_clamped
    (body : CheckoutBody) (reqAffiliate cookieAff : Option String) (host : String) :
    (createCheckoutSessionParams body reqAffiliate cookieAff host).adjustable_minimum = 1 ∧
    (createCheckoutSessionParams body reqAffiliate cookieAff host).adjustable_maximum = 10 ∧
    (∀ n : Int, parsedQty body.quantity = some n →
      (createCheckoutSessionParams body reqAffiliate cookieAff host).quantity = max 1 n) ∧
    (parsedQty body.quantity = none →
      (createCheckoutSessionParams body reqAffiliate cookieAff host).quantity = 1) := by
  refine ⟨rfl, rfl, ?_, ?_⟩
  · intro n hn
    show initialQty body.quantity = max 1 n
    unfold initialQty
    rw [hn]
    by_cases h0 : n = 0
    · subst h0
      simp
    · simp [h0]
  · intro hn
    show initialQty body.quantity = 1
    unfold initialQty
    rw [hn]
    decide

/-- C10 witness: a body quantity of 50 is passed through as the initial
quantity even though the adjustable maximum sent alongside is 10; a
quantity of 0 yields 1. -/
theorem quantity_lower_clamped_not_upper_clamped_witness :
    (createCheckoutSessionParams
      { name := none, email := none, phone := none, address1 := none,
        address2 := none, postalCode := none, affiliate := none,
        quantity := some "50" } none none "www.myndmatterspack.com").quantity = 50 ∧
    (createCheckoutSessionParams
      { name := none, email := none, phone := none, address1 := none,
        address2 := none, postalCode := none, affiliate := none,
        quantity := some "50" } none none "www.myndmatterspack.com").adjustable_maximum = 10 := by
  have h := quantity_lower_clamped_not_upper_clamped
    { name := none, email := none, phone := none, address1 := none,
      address2 := none, postalCode := none, affiliate := none,
      quantity := some "50" } none none "www.myndmatterspack.com"
  refine ⟨?_, h.2.1⟩
  have h50 := h.2.2.1 50 (by decide)
  rw [h50]
  decide

/-! ## Theorems about the webhook -/

/-- C1: on a verified invoice.created event whose invoice, subscription
and customer all bind the same metadata key, the value written back is
the customer's, not the subscription's: the code spreads customer
metadata last, so it overrides rather than filling only absent keys.
The invoice here carries source=invoice and affiliate=partnerxyz, the
subscription carries source=sub, the customer carries source=cust; the
written metadata maps source to cust. -/
theorem customer_metadata_overrides_on_invoice_created :
    stripeWebhook true true
      (fun sid => if sid = "sub_1" then Except.ok [("source", "sub")]
                  else Except.error "no such subscription")
      (fun cid => if cid = "cus_1" then Except.ok [("source", "cust")]
                  else Except.error "no such customer")
      (fun _ _ => Except.ok ())
      (.invoiceCreated
        { id := "in_1",
          metadata := [("source", "invoice"), ("affiliate", "partnerxyz")],
          subscription := some "sub_1", customer := some "cus_1" }) =
      { status := 200,
        actions := [.retrieveSubscription "sub_1", .retrieveCustomer "cus_1",
                    .updateInvoice "in_1"
                      [("affiliate", "partnerxyz"), ("source", "cust")]] } ∧
    mlookup [("affiliate", "partnerxyz"), ("source", "cust")] "source" = some "cust" := by
  constructor
  · decide
  · decide

/-- C2 counterexample: a verified checkout.session.completed event for a
recurring purchase (mode subscription, non-empty metadata) yields only a
log line; no subscription-update action is emitted, so the session's
metadata is not propagated onto the subscription. -/
theorem session_completed_does_not_propagate_metadata :
    (stripeWebhook true true
        (fun _ => Except.error "unused") (fun _ => Except.error "unused")
        (fun _ _ => Except.error "unused")
        (.checkoutSessionCompleted
          { id := "cs_123", mode := "subscription",
            metadata := [("affiliate", "partnerxyz")] })) =
      { status := 200, actions := [.log "checkout.session.completed cs_123"] } ∧
    ((stripeWebhook true true
        (fun _ => Except.error "unused") (fun _ => Except.error "unused")
        (fun _ _ => Except.error "unused")
        (.checkoutSessionCompleted
          { id := "cs_123", mode := "subscription",
            metadata := [("affiliate", "partnerxyz")] })).actions.any
      isSubscriptionUpdate) = false := by
  constructor
  · decide
  · decide

/-- C2 amended: for every verified checkout.session.completed event,
whatever the session's mode and metadata, the handler only logs the
session and performs no provider write; in particular it never
propagates the session's metadata onto a subscription. -/
theorem session_completed_handler_only_logs
    (session : CheckoutSession)
    (subRetrieve custRetrieve : String → Except String Metadata)
    (invUpdate : String → Metadata → Except String Unit) :
    stripeWebhook true true subRetrieve custRetrieve invUpdate
      (.checkoutSessionCompleted session) =
      { status := 200,
        actions := [.log ("checkout.session.completed " ++ session.id)] } :=
  rfl

/-- C3: once signature verification has passed (secret present, valid
signature), the endpoint answers 200 for every event and every behavior
of the provider calls, including subscription/customer lookups and the
invoice update throwing. -/
theorem verified_webhook_always_acknowledged
    (secretPresent sigValid : Bool)
    (subRetrieve custRetrieve : String → Except String Metadata)
    (invUpdate : String → Metadata → Except String Unit)
    (event : StripeEvent)
    (hs : secretPresent = true) (hv : sigValid = true) :
    (stripeWebhook secretPresent sigValid subRetrieve custRetrieve invUpdate event).status
      = 200 := by
  subst hs
  subst hv
  unfold stripeWebhook
  simp only [Bool.not_true, Bool.or_self, Bool.false_eq_true, if_false]
  cases handleEvent subRetrieve custRetrieve invUpdate event <;> rfl

/-- C3 witness: an invoice.created event whose subscription lookup,
customer lookup and invoice update all throw is still acknowledged with
200. -/
theorem verified_webhook_always_acknowledged_witness :
    (stripeWebhook true true
        (fun _ => Except.error "subscription lookup failed")
        (fun _ => Except.error "customer lookup failed")
        (fun _ _ => Except.error "invoice update failed")
        (.invoiceCreated
          { id := "in_9", metadata := [("k", "v")],
            subscription := some "sub_9", customer := some "cus_9" })).status = 200 :=
  verified_webhook_always_acknowledged true true
    (fun _ => Except.error "subscription lookup failed")
    (fun _ => Except.error "customer lookup failed")
    (fun _ _ => Except.error "invoice update failed")
    (.invoiceCreated
      { id := "in_9", metadata := [("k", "v")],
        subscription := some "sub_9", customer := some "cus_9" })
    rfl rfl

/-- C4: when the signing secret is missing or the signature is invalid,
the endpoint answers 400 and performs no dispatch: no provider lookup
and no invoice update happen. -/
theorem invalid_signature_rejected_without_processing
    (secretPresent sigValid : Bool)
    (subRetrieve custRetrieve : String → Except String Metadata)
    (invUpdate : String → Metadata → Except String Unit)
    (event : StripeEvent)
    (h : secretPresent = false ∨ sigValid = false) :
    stripeWebhook secretPresent sigValid subRetrieve custRetrieve invUpdate event =
      { status := 400, actions := [] } := by
  unfold stripeWebhook
  rcases h with h | h
  · subst h
    rfl
  · subst h
    simp

/-- C4 witness: an invoice.created event with an invalid signature is
answered 400 with no provider calls. -/
theorem invalid_signature_rejected_without_processing_witness :
    stripeWebhook true false
      (fun _ => Except.ok [("source", "sub")])
      (fun _ => Except.ok [("source", "cust")])
      (fun _ _ => Except.ok ())
      (.invoiceCreated
        { id := "in_1", metadata := [("source", "invoice")],
          subscription := some "sub_1", customer := some "cus_1" }) =
      { status := 400, actions := [] } :=
  invalid_signature_rejected_without_processing true false
    (fun _ => Except.ok [("source", "sub")])
    (fun _ => Except.ok [("source", "cust")])
    (fun _ _ => Except.ok ())
    (.invoiceCreated
      { id := "in_1", metadata := [("source", "invoice")],
        subscription := some "sub_1", customer := some "cus_1" })
    (Or.inr rfl)


end MyndMatters
